import Mathlib

/-!
Formal model of the Insight Proxy Handler (`api/generate-insight.js`).

The serverless handler is embedded shallowly:

* Machine integers are `Nat`/`Int`; JavaScript timestamps (`Date.now()`) are
  `Nat` milliseconds.  `Math.max(0, Math.ceil((a - b)/1000))` coincides with
  truncated `Nat` subtraction followed by `(· + 999) / 1000`, which is how it
  is rendered here.
* The process-wide `rateLimitBuckets` map together with `lastRateLimitSweepAt`
  is an explicit `RateState` value threaded through the functions that mutate
  it in the source.
* The outbound `fetch` is abstracted by an oracle `Nat → FetchResult` giving
  the outcome of each attempt (1-indexed): a response with its `ok` flag,
  status and parsed body, an `AbortError` (the timeout path of
  `fetchWithTimeout`), a `FetchError`, or some other thrown error.  The
  request payload, API key and `timeoutMs` only shape the fetch itself, so
  they are folded into the oracle.
* `new URL(origin).hostname` (a WHATWG-URL library call) is abstracted by a
  parameter `parseHostname : String → Option String` (`none` models the
  constructor throwing), and `crypto.createHash('sha256')` by a parameter
  `hashToken : String → String`.
* The `Number(...)`/`Number.isFinite` parsing of the rate-limit and request
  env overrides (`getRateLimitConfig` / `getRequestConfig`) is abstracted:
  the handler model receives the resolved numeric configuration.
-/

/-! ### JavaScript string primitives

The JavaScript string methods the handler uses are rendered as structurally
recursive functions over the character list of a `String` (the built-in
`String.trim`, `String.toLower` and friends are avoided: they also differ
from the JavaScript ones in their whitespace classes).  The whitespace class
is the ASCII part of JavaScript `\s`. -/

/-- Whitespace class of JavaScript `\s` and `String.prototype.trim`. -/
def isJsSpace (c : Char) : Bool :=
  c = ' ' || c = '\t' || c = '\n' || c = '\r' ||
  c = Char.ofNat 11 || c = Char.ofNat 12

/-- JavaScript `String.prototype.trim`. -/
def jsTrim (s : String) : String :=
  String.mk (((s.data.dropWhile isJsSpace).reverse.dropWhile isJsSpace).reverse)

/-- JavaScript `String.prototype.toLowerCase` (ASCII case map). -/
def jsToLower (s : String) : String :=
  String.mk (s.data.map Char.toLower)

/-- Split a character list at every occurrence of `sep`. -/
def jsSplitChar (sep : Char) : List Char → List (List Char)
  | [] => [[]]
  | c :: rest =>
    let r := jsSplitChar sep rest
    if c = sep then [] :: r
    else (c :: r.headD []) :: r.tail

/-- JavaScript `String.prototype.split` with a one-character separator. -/
def jsSplit (s : String) (sep : Char) : List String :=
  (jsSplitChar sep s.data).map fun l => String.mk l

/-- JavaScript `String.prototype.startsWith`. -/
def jsStartsWith (s pre : String) : Bool :=
  pre.data.isPrefixOf s.data

/-- JavaScript `String.prototype.endsWith`. -/
def jsEndsWith (s suf : String) : Bool :=
  suf.data.reverse.isPrefixOf s.data.reverse

/-- JavaScript `String.prototype.slice(n)` for a nonnegative start index. -/
def jsDrop (n : Nat) (s : String) : String :=
  String.mk (s.data.drop n)

/-! ### Upstream caller (`fetchWithTimeout` / `callGeminiWithRetry`) -/

/-- Outcome of one upstream fetch attempt. -/
inductive FetchResult where
  | response (ok : Bool) (status : Nat) (body : String)
  | abortError
  | fetchError
  | otherError (msg : String)
deriving DecidableEq

/-- Errors thrown out of `callGeminiWithRetry`. -/
inductive GeminiError where
  | upstreamRequestFailed
  | aborted
  | fetchFailed
  | otherFailure (msg : String)
  | failedToContact
deriving DecidableEq

/-- Loop body of `callGeminiWithRetry`.  `attempt` counts attempts already
made, `lastError` is the `lastError` variable, and `fuel` bounds the loop
(`maxRetries + 1 - attempt` iterations remain, so `maxRetries + 1` fuel is
always enough).  Returns the total number of attempts made together with the
result (`Except.ok` = the parsed JSON body, `Except.error` = the thrown
error). -/
def callGeminiGo (oracle : Nat → FetchResult) (maxRetries : Nat) :
    Nat → Option GeminiError → Nat → Nat × Except GeminiError String
  | attempt, lastError, 0 =>
      (attempt, Except.error (lastError.getD GeminiError.failedToContact))
  | attempt, lastError, fuel + 1 =>
    if attempt ≤ maxRetries then
      let a := attempt + 1
      match oracle a with
      | FetchResult.response ok status body =>
        if ok then (a, Except.ok body)
        else if 500 ≤ status ∧ a ≤ maxRetries then
          -- `continue` after the 5xx check; the catch block is skipped.
          callGeminiGo oracle maxRetries a lastError fuel
        else if maxRetries < a then
          -- `throw new Error('Upstream request failed.')`, caught; the
          -- message makes it retryable, but attempts are exhausted.
          (a, Except.error GeminiError.upstreamRequestFailed)
        else
          -- caught and classified retryable by its message: backoff, retry.
          callGeminiGo oracle maxRetries a
            (some GeminiError.upstreamRequestFailed) fuel
      | FetchResult.abortError =>
        if maxRetries < a then (a, Except.error GeminiError.aborted)
        else callGeminiGo oracle maxRetries a (some GeminiError.aborted) fuel
      | FetchResult.fetchError =>
        if maxRetries < a then (a, Except.error GeminiError.fetchFailed)
        else callGeminiGo oracle maxRetries a (some GeminiError.fetchFailed) fuel
      | FetchResult.otherError msg =>
        -- not `AbortError`/`FetchError` and a different message: rethrown.
        (a, Except.error (GeminiError.otherFailure msg))
    else (attempt, Except.error (lastError.getD GeminiError.failedToContact))

/-- Model of `callGeminiWithRetry(payload, apiKey, cfg)`: the `while` loop
starting at `attempt = 0`, `lastError` unset. -/
def callGeminiWithRetry (oracle : Nat → FetchResult) (maxRetries : Nat) :
    Nat × Except GeminiError String :=
  callGeminiGo oracle maxRetries 0 none (maxRetries + 1)

/-! ### Rate limiter -/

/-- One entry of `rateLimitBuckets`. -/
structure Bucket where
  count : Nat
  expiresAt : Nat
deriving DecidableEq

/-- The process-wide limiter state: the `rateLimitBuckets` map (as a lookup
function) and `lastRateLimitSweepAt`. -/
structure RateState where
  buckets : String → Option Bucket
  lastSweepAt : Nat

/-- The state at module load: `new Map()` and `lastRateLimitSweepAt = 0`. -/
def emptyRateState : RateState := ⟨fun _ => none, 0⟩

/-- Model of `rateLimitBuckets.set(key, bucket)`. -/
def setBucket (s : RateState) (key : String) (b : Bucket) : RateState :=
  { s with buckets := fun k => if k = key then some b else s.buckets k }

/-- Configuration produced by `getRateLimitConfig` (after `Number` parsing;
`windowMs` is guaranteed positive there, `maxRequests` is not). -/
structure RateLimitConfig where
  maxRequests : Int
  windowMs : Nat
deriving DecidableEq

/-- Model of `pruneExpiredRateLimitBuckets(now)`: skip if the last sweep was
less than 60 s ago, else record the sweep time and drop expired buckets. -/
def pruneExpiredRateLimitBuckets (now : Nat) (s : RateState) : RateState :=
  if now - s.lastSweepAt < 60000 then s
  else
    { buckets := fun k =>
        match s.buckets k with
        | some b => if b.expiresAt ≤ now then none else some b
        | none => none,
      lastSweepAt := now }

/-- Model of `isRateLimited(clientKey, config, now)`: returns the boolean the
source returns, paired with the mutated state. -/
def isRateLimited (clientKey : String) (config : RateLimitConfig) (now : Nat)
    (s : RateState) : Bool × RateState :=
  if config.maxRequests = 0 ∨ config.maxRequests < 0 then (false, s)
  else
    let s1 := pruneExpiredRateLimitBuckets now s
    match s1.buckets clientKey with
    | none => (false, setBucket s1 clientKey ⟨1, now + config.windowMs⟩)
    | some b =>
      if b.expiresAt ≤ now then
        (false, setBucket s1 clientKey ⟨1, now + config.windowMs⟩)
      else if config.maxRequests ≤ (b.count : Int) then (true, s1)
      else (false, setBucket s1 clientKey ⟨b.count + 1, b.expiresAt⟩)

/-- Model of `secondsUntilReset(clientKey, now)`:
`Math.max(0, Math.ceil((expiresAt - now) / 1000))`, which on `Nat` is
truncated subtraction followed by ceiling division. -/
def secondsUntilReset (clientKey : String) (now : Nat) (s : RateState) : Nat :=
  match s.buckets clientKey with
  | some b => (b.expiresAt - now + 999) / 1000
  | none => 0

/-- The `Retry-After` value of the 429 branch:
`secondsUntilReset(clientKey, now) || Math.ceil(rlCfg.windowMs / 1000)`. -/
def rlRetryAfter (clientKey : String) (windowMs now : Nat) (s : RateState) :
    Nat :=
  let r := secondsUntilReset clientKey now s
  if r = 0 then (windowMs + 999) / 1000 else r

/-! ### Environment helpers and origin policy -/

/-- Model of `normalizeEnvironmentValue` (`undefined` is `none`). -/
def normalizeEnvironmentValue (v : Option String) : String :=
  match v with
  | some s => jsToLower (jsTrim s)
  | none => ""

/-- Model of `isProductionEnvironment()` over the two env variables. -/
def isProductionEnvironment (vercelEnv nodeEnv : Option String) : Bool :=
  let ve := normalizeEnvironmentValue vercelEnv
  if ve ≠ "" then ve = "production"
  else
    let ne := normalizeEnvironmentValue nodeEnv
    if ne ≠ "" then ne = "production" else false

/-- Model of `parseAllowedOrigins()` over the raw `ALLOWED_ORIGINS` value and
the production flag.  A JavaScript `Set` is rendered as the underlying list;
only membership and emptiness are ever consulted. -/
def parseAllowedOrigins (raw : Option String) (isProd : Bool) : List String :=
  match raw with
  | some s =>
    if jsTrim s ≠ "" then ((jsSplit s ',').map jsTrim).filter (· ≠ "")
    else if !isProd then ["*"] else []
  | none => if !isProd then ["*"] else []

/-- Model of `isWildcardMatch(origin, pattern)`; `parseHostname` stands for
`new URL(origin).hostname`, with `none` for the constructor throwing. -/
def isWildcardMatch (parseHostname : String → Option String)
    (origin pattern : String) : Bool :=
  if !(jsStartsWith pattern "*.") then false
  else
    match parseHostname origin with
    | none => false
    | some hostname =>
      let suffix := jsDrop 2 pattern
      hostname == suffix || jsEndsWith hostname ("." ++ suffix)

/-- Model of `isOriginAllowed(origin, allowed)`. -/
def isOriginAllowed (parseHostname : String → Option String) (origin : String)
    (allowed : List String) : Bool :=
  if origin = "" then true
  else if allowed.contains "*" then true
  else if allowed.contains origin then true
  else allowed.any fun entry =>
    jsStartsWith entry "*." && isWildcardMatch parseHostname origin entry

/-- Model of `getCorsOriginToEcho(origin, allowed)`. -/
def getCorsOriginToEcho (parseHostname : String → Option String)
    (origin : String) (allowed : List String) : Option String :=
  if origin = "" then none
  else if allowed.contains "*" then some "*"
  else if allowed.contains origin then some origin
  else if allowed.any (fun entry =>
      jsStartsWith entry "*." && isWildcardMatch parseHostname origin entry) then
    some origin
  else none

/-! ### Access tokens and client identity -/

/-- Model of `parseAccessTokens()` over the raw env value (`''` is falsy). -/
def parseAccessTokens (raw : Option String) : List String :=
  match raw with
  | none => []
  | some s =>
    if s = "" then []
    else ((jsSplit s ',').map jsTrim).filter (· ≠ "")

/-- Model of `getAccessTokenFromHeader`: match `/^Bearer\s+(.+)$/i` against
the header and return `m[1].trim()`.  The regex matches exactly when the
first six characters are `bearer` case-insensitively, the next character is
whitespace, and at least one further character follows; the captured group
(after the greedy `\s+`, backtracking one space when everything after
`bearer` is whitespace) trims to the remainder with leading whitespace
removed. -/
def getAccessTokenFromHeader (authorization : Option String) : Option String :=
  match authorization with
  | none => none
  | some raw =>
    let cs := raw.data
    let rest := cs.drop 6
    if (cs.take 6).map Char.toLower = "bearer".data ∧ 2 ≤ rest.length ∧
        isJsSpace (rest.headD 'x') then
      some (jsTrim (String.mk (rest.dropWhile isJsSpace)))
    else none

/-- JavaScript truthiness of an optional string (`undefined` and `''` are
falsy). -/
def jsStrTruthy (v : Option String) : Bool :=
  match v with
  | some s => s ≠ ""
  | none => false

/-- Shape of the inbound request: the fields the handler reads.  `prompt` is
`some p` exactly when `req.body` destructures to a string `prompt` field
(absent body, absent field and non-string values all behave identically at
the `typeof` check, so they are all `none`). -/
structure Request where
  method : String
  origin : Option String
  contentType : Option String
  authorization : Option String
  xForwardedFor : Option String
  remoteAddress : Option String
  prompt : Option String

/-- The `req.socket?.remoteAddress || 'unknown'` fallback. -/
def jsRemoteAddress (req : Request) : String :=
  match req.remoteAddress with
  | some a => if a = "" then "unknown" else a
  | none => "unknown"

/-- Model of `getClientKey(req, hashedToken)`. -/
def getClientKey (req : Request) (hashedToken : Option String) : String :=
  match hashedToken with
  | some h => "token:" ++ h
  | none =>
    match req.xForwardedFor with
    | some fwd =>
      if jsTrim fwd = "" then jsRemoteAddress req
      else jsTrim ((jsSplit fwd ',').headD "")
    | none => jsRemoteAddress req

/-! ### The handler (`module.exports`) -/

/-- Resolved configuration surface of one invocation. -/
structure HandlerConfig where
  vercelEnv : Option String
  nodeEnv : Option String
  allowedOriginsRaw : Option String
  accessTokensRaw : Option String
  geminiApiKey : Option String
  rlMaxRequests : Int
  rlWindowMs : Nat
  maxRetries : Nat

/-- Response bodies the handler can produce. -/
inductive RespBody where
  | empty
  | jsonError (msg : String)
  | jsonErrorWithDocs (msg docs : String)
  | jsonData (payload : String)
deriving DecidableEq

/-- Observable outcome of one invocation: status, headers in `setHeader`
order, body, the limiter state afterwards, and how many upstream attempts
were made. -/
structure HandlerResult where
  status : Nat
  headers : List (String × String)
  body : RespBody
  rate : RateState
  upstreamAttempts : Nat

/-- Substring test rendering JavaScript `String.prototype.includes`. -/
def containsSubstr (s pat : String) : Bool :=
  (List.range (s.data.length + 1)).any fun i =>
    pat.data.isPrefixOf (s.data.drop i)

/-- The maximum prompt length (`MAX_PROMPT_LENGTH`). -/
def MAX_PROMPT_LENGTH : Nat := 4000

/-- CORS headers set after the origin decision, in `setHeader` order. -/
def corsHeaders (echo : Option String) : List (String × String) :=
  (match echo with
   | some e => [("Access-Control-Allow-Origin", e), ("Vary", "Origin")]
   | none => []) ++
  [("Access-Control-Allow-Methods", "POST, OPTIONS"),
   ("Access-Control-Allow-Headers", "Content-Type, Authorization"),
   ("Access-Control-Max-Age", "600")]

/-- Upstream phase: the `try`/`catch` around `callGeminiWithRetry`. -/
def handlerUpstream (oracle : Nat → FetchResult) (maxRetries : Nat)
    (hdrs : List (String × String)) (s : RateState) : HandlerResult :=
  let r := callGeminiWithRetry oracle maxRetries
  match r.2 with
  | Except.ok data => ⟨200, hdrs, RespBody.jsonData data, s, r.1⟩
  | Except.error _ =>
    ⟨500, hdrs, RespBody.jsonError "Failed to generate insight.", s, r.1⟩

/-- Rate-limit phase: `getClientKey`, `isRateLimited`, 429 or upstream. -/
def handlerRate (oracle : Nat → FetchResult) (cfg : HandlerConfig)
    (req : Request) (hashedToken : Option String)
    (hdrs : List (String × String)) (now : Nat) (s : RateState) :
    HandlerResult :=
  let clientKey := getClientKey req hashedToken
  let rlCfg : RateLimitConfig := ⟨cfg.rlMaxRequests, cfg.rlWindowMs⟩
  let res := isRateLimited clientKey rlCfg now s
  if res.1 then
    let retryAfter := rlRetryAfter clientKey cfg.rlWindowMs now res.2
    ⟨429, hdrs ++ [("Retry-After", toString retryAfter)],
      RespBody.jsonError "Too many requests. Please slow down.", res.2, 0⟩
  else handlerUpstream oracle cfg.maxRetries hdrs res.2

/-- Method, content-type and prompt validation, then the rate-limit phase. -/
def handlerValidate (oracle : Nat → FetchResult) (cfg : HandlerConfig)
    (req : Request) (hashedToken : Option String)
    (hdrs : List (String × String)) (now : Nat) (s : RateState) :
    HandlerResult :=
  if req.method ≠ "POST" then
    ⟨405, hdrs, RespBody.jsonError "Method Not Allowed", s, 0⟩
  else if !(containsSubstr (req.contentType.getD "") "application/json") then
    ⟨415, hdrs, RespBody.jsonError "Content-Type must be application/json.",
      s, 0⟩
  else
    match req.prompt with
    | none =>
      ⟨400, hdrs, RespBody.jsonError "Prompt is required in the request body.",
        s, 0⟩
    | some p =>
      if jsTrim p = "" then
        ⟨400, hdrs,
          RespBody.jsonError "Prompt is required in the request body.", s, 0⟩
      else if MAX_PROMPT_LENGTH < p.length then
        ⟨413, hdrs, RespBody.jsonError "Prompt is too long.", s, 0⟩
      else handlerRate oracle cfg req hashedToken hdrs now s

/-- API-key check (before method validation in the source), then onwards. -/
def handlerAfterAuth (oracle : Nat → FetchResult) (cfg : HandlerConfig)
    (req : Request) (hashedToken : Option String)
    (hdrs : List (String × String)) (now : Nat) (s : RateState) :
    HandlerResult :=
  if !(jsStrTruthy cfg.geminiApiKey) then
    ⟨500, hdrs,
      RespBody.jsonErrorWithDocs
        "Gemini API key is not configured. Set GEMINI_API_KEY with your Gemini key only."
        "https://ai.google.dev/gemini-api/docs/api-key", s, 0⟩
  else handlerValidate oracle cfg req hashedToken hdrs now s

/-- Access-token enforcement (`parseAccessTokens` onwards). -/
def handlerAuth (hashToken : String → String) (oracle : Nat → FetchResult)
    (cfg : HandlerConfig) (req : Request) (hdrs : List (String × String))
    (now : Nat) (s : RateState) : HandlerResult :=
  let accessTokens := parseAccessTokens cfg.accessTokensRaw
  let inProduction := isProductionEnvironment cfg.vercelEnv cfg.nodeEnv
  if inProduction && accessTokens.isEmpty then
    ⟨500, hdrs,
      RespBody.jsonError "Access token configuration is missing on the server.",
      s, 0⟩
  else if accessTokens.isEmpty then
    handlerAfterAuth oracle cfg req none hdrs now s
  else
    match getAccessTokenFromHeader req.authorization with
    | none =>
      ⟨401, hdrs, RespBody.jsonError "A valid access token is required.", s, 0⟩
    | some t =>
      if t = "" || !(accessTokens.contains t) then
        ⟨401, hdrs, RespBody.jsonError "A valid access token is required.",
          s, 0⟩
      else handlerAfterAuth oracle cfg req (some (hashToken t)) hdrs now s

/-- Model of the exported handler (`module.exports`). -/
def handler (parseHostname : String → Option String)
    (hashToken : String → String) (oracle : Nat → FetchResult)
    (cfg : HandlerConfig) (req : Request) (now : Nat) (s : RateState) :
    HandlerResult :=
  let inProduction := isProductionEnvironment cfg.vercelEnv cfg.nodeEnv
  let allowedOrigins := parseAllowedOrigins cfg.allowedOriginsRaw inProduction
  let requestOrigin := req.origin.getD ""
  if allowedOrigins.isEmpty && inProduction then
    ⟨500, [],
      RespBody.jsonError "CORS configuration is missing on the server.", s, 0⟩
  else if !(isOriginAllowed parseHostname requestOrigin allowedOrigins) then
    ⟨403, [], RespBody.jsonError "Origin not allowed.", s, 0⟩
  else
    let hdrs :=
      corsHeaders (getCorsOriginToEcho parseHostname requestOrigin
        allowedOrigins)
    if req.method = "OPTIONS" then ⟨204, hdrs, RespBody.empty, s, 0⟩
    else handlerAuth hashToken oracle cfg req hdrs now s

/-! ### Rate limiter: basic lemmas -/

theorem prune_buckets_of_none (now : Nat) (s : RateState) (k : String)
    (hb : s.buckets k = none) :
    (pruneExpiredRateLimitBuckets now s).buckets k = none := by
  unfold pruneExpiredRateLimitBuckets
  split
  · exact hb
  · simp only [hb]

theorem prune_buckets_of_live (now : Nat) (s : RateState) (k : String)
    (b : Bucket) (hb : s.buckets k = some b) (hlive : now < b.expiresAt) :
    (pruneExpiredRateLimitBuckets now s).buckets k = some b := by
  unfold pruneExpiredRateLimitBuckets
  split
  · exact hb
  · simp only [hb]
    rw [if_neg (Nat.not_le.mpr hlive)]

theorem prune_buckets_some_inv (now : Nat) (s : RateState) (k : String)
    (b : Bucket)
    (hp : (pruneExpiredRateLimitBuckets now s).buckets k = some b) :
    s.buckets k = some b := by
  unfold pruneExpiredRateLimitBuckets at hp
  split at hp
  · exact hp
  · simp only at hp
    split at hp
    · rename_i b' heq
      split at hp
      · exact absurd hp (by simp)
      · rw [heq]
        exact hp
    · exact absurd hp (by simp)

theorem isRateLimited_disabled (key : String) (cfg : RateLimitConfig)
    (now : Nat) (s : RateState)
    (hg : cfg.maxRequests = 0 ∨ cfg.maxRequests < 0) :
    isRateLimited key cfg now s = (false, s) := by
  unfold isRateLimited
  rw [if_pos hg]

theorem isRateLimited_of_prune_none (key : String) (cfg : RateLimitConfig)
    (now : Nat) (s : RateState)
    (hg : ¬(cfg.maxRequests = 0 ∨ cfg.maxRequests < 0))
    (hp : (pruneExpiredRateLimitBuckets now s).buckets key = none) :
    isRateLimited key cfg now s =
      (false, setBucket (pruneExpiredRateLimitBuckets now s) key
        ⟨1, now + cfg.windowMs⟩) := by
  unfold isRateLimited
  rw [if_neg hg]
  simp only [hp]

theorem isRateLimited_of_prune_some (key : String) (cfg : RateLimitConfig)
    (now : Nat) (s : RateState) (b : Bucket)
    (hg : ¬(cfg.maxRequests = 0 ∨ cfg.maxRequests < 0))
    (hp : (pruneExpiredRateLimitBuckets now s).buckets key = some b) :
    isRateLimited key cfg now s =
      (if b.expiresAt ≤ now then
        (false, setBucket (pruneExpiredRateLimitBuckets now s) key
          ⟨1, now + cfg.windowMs⟩)
      else if cfg.maxRequests ≤ (b.count : Int) then
        (true, pruneExpiredRateLimitBuckets now s)
      else
        (false, setBucket (pruneExpiredRateLimitBuckets now s) key
          ⟨b.count + 1, b.expiresAt⟩)) := by
  unfold isRateLimited
  rw [if_neg hg]
  simp only [hp]

theorem isRateLimited_fresh (key : String) (cfg : RateLimitConfig) (now : Nat)
    (s : RateState) (hpos : 0 < cfg.maxRequests)
    (hb : s.buckets key = none) :
    isRateLimited key cfg now s =
      (false, setBucket (pruneExpiredRateLimitBuckets now s) key
        ⟨1, now + cfg.windowMs⟩) :=
  isRateLimited_of_prune_none key cfg now s (by omega)
    (prune_buckets_of_none now s key hb)

theorem isRateLimited_incr (key : String) (cfg : RateLimitConfig) (now : Nat)
    (s : RateState) (b : Bucket) (hpos : 0 < cfg.maxRequests)
    (hb : s.buckets key = some b) (hlive : now < b.expiresAt)
    (hroom : (b.count : Int) < cfg.maxRequests) :
    isRateLimited key cfg now s =
      (false, setBucket (pruneExpiredRateLimitBuckets now s) key
        ⟨b.count + 1, b.expiresAt⟩) := by
  rw [isRateLimited_of_prune_some key cfg now s b (by omega)
    (prune_buckets_of_live now s key b hb hlive)]
  rw [if_neg (Nat.not_le.mpr hlive), if_neg (by omega)]

theorem isRateLimited_reject (key : String) (cfg : RateLimitConfig) (now : Nat)
    (s : RateState) (b : Bucket) (hpos : 0 < cfg.maxRequests)
    (hb : s.buckets key = some b) (hlive : now < b.expiresAt)
    (hfull : cfg.maxRequests ≤ (b.count : Int)) :
    isRateLimited key cfg now s =
      (true, pruneExpiredRateLimitBuckets now s) := by
  rw [isRateLimited_of_prune_some key cfg now s b (by omega)
    (prune_buckets_of_live now s key b hb hlive)]
  rw [if_neg (Nat.not_le.mpr hlive), if_pos hfull]

theorem isRateLimited_expired (key : String) (cfg : RateLimitConfig)
    (now : Nat) (s : RateState) (b : Bucket) (hpos : 0 < cfg.maxRequests)
    (hb : s.buckets key = some b) (hexp : b.expiresAt ≤ now) :
    isRateLimited key cfg now s =
      (false, setBucket (pruneExpiredRateLimitBuckets now s) key
        ⟨1, now + cfg.windowMs⟩) := by
  cases hp : (pruneExpiredRateLimitBuckets now s).buckets key with
  | none => exact isRateLimited_of_prune_none key cfg now s (by omega) hp
  | some b' =>
    have hb' : b' = b := by
      have := prune_buckets_some_inv now s key b' hp
      rw [hb] at this
      exact (Option.some.injEq ..).mp this.symm
    subst hb'
    rw [isRateLimited_of_prune_some key cfg now s b' (by omega) hp]
    rw [if_pos hexp]

theorem setBucket_lookup_self (s : RateState) (key : String) (b : Bucket) :
    (setBucket s key b).buckets key = some b := by
  simp [setBucket]

theorem setBucket_lookup_other (s : RateState) (key k : String) (b : Bucket)
    (h : k ≠ key) : (setBucket s key b).buckets k = s.buckets k := by
  simp [setBucket, h]

/-! ### Claims C9 and C10: limiter invariants -/

/-- Every bucket currently stored holds between 1 and `N` counted requests. -/
def BucketInv (N : Nat) (s : RateState) : Prop :=
  ∀ k b, s.buckets k = some b → 1 ≤ b.count ∧ b.count ≤ N

theorem bucketInv_prune (N : Nat) (now : Nat) (s : RateState)
    (hinv : BucketInv N s) :
    BucketInv N (pruneExpiredRateLimitBuckets now s) := by
  intro k b hb
  exact hinv k b (prune_buckets_some_inv now s k b hb)

theorem bucketInv_setBucket (N : Nat) (s : RateState) (key : String)
    (c e : Nat) (hinv : BucketInv N s) (h1 : 1 ≤ c) (h2 : c ≤ N) :
    BucketInv N (setBucket s key ⟨c, e⟩) := by
  intro k b hb
  unfold setBucket at hb
  simp only at hb
  split at hb
  · cases hb
    exact ⟨h1, h2⟩
  · exact hinv k b hb

/-- C9: when `isRateLimited` rejects a request, the bucket stored for that
client key is exactly the bucket that was there before the call: its count
is not incremented and its `expiresAt` is not extended. -/
theorem rejected_request_leaves_bucket_unchanged (key : String)
    (cfg : RateLimitConfig) (now : Nat) (s : RateState)
    (hrej : (isRateLimited key cfg now s).1 = true) :
    (isRateLimited key cfg now s).2.buckets key = s.buckets key := by
  by_cases hg : cfg.maxRequests = 0 ∨ cfg.maxRequests < 0
  · rw [isRateLimited_disabled key cfg now s hg]
  · cases hp : (pruneExpiredRateLimitBuckets now s).buckets key with
    | none =>
      rw [isRateLimited_of_prune_none key cfg now s hg hp] at hrej
      exact absurd hrej (by simp)
    | some b =>
      rw [isRateLimited_of_prune_some key cfg now s b hg hp] at hrej ⊢
      by_cases hexp : b.expiresAt ≤ now
      · rw [if_pos hexp] at hrej
        exact absurd hrej (by simp)
      · rw [if_neg hexp] at hrej ⊢
        by_cases hfull : cfg.maxRequests ≤ (b.count : Int)
        · rw [if_pos hfull]
          rw [hp, prune_buckets_some_inv now s key b hp]
        · rw [if_neg hfull] at hrej
          exact absurd hrej (by simp)

/-- Witness for C9 at a concrete full bucket. -/
theorem rejected_request_leaves_bucket_unchanged_app :
    (isRateLimited "k" ⟨5, 1000⟩ 50
      ⟨fun k => if k = "k" then some ⟨5, 100⟩ else none, 0⟩).1 = true ∧
    (isRateLimited "k" ⟨5, 1000⟩ 50
      ⟨fun k => if k = "k" then some ⟨5, 100⟩ else none, 0⟩).2.buckets "k" =
      (RateState.mk (fun k => if k = "k" then some ⟨5, 100⟩ else none)
        0).buckets "k" :=
  ⟨by decide, rejected_request_leaves_bucket_unchanged "k" ⟨5, 1000⟩ 50
    ⟨fun k => if k = "k" then some ⟨5, 100⟩ else none, 0⟩ (by decide)⟩

/-- C10: with a configured positive limit `N`, one `isRateLimited` call (the
bucket creation, increment and rejection paths) and one sweep both preserve
the invariant that every stored bucket has `1 ≤ count ≤ N`. -/
theorem rate_limiter_preserves_bucket_bounds (N : Nat) (hN : 1 ≤ N)
    (cfg : RateLimitConfig) (hcfg : cfg.maxRequests = (N : Int))
    (key : String) (now : Nat) (s : RateState) (hinv : BucketInv N s) :
    BucketInv N (isRateLimited key cfg now s).2 ∧
    BucketInv N (pruneExpiredRateLimitBuckets now s) := by
  have hNpos : (0 : Int) < cfg.maxRequests := by
    rw [hcfg]
    exact_mod_cast hN
  have hg : ¬(cfg.maxRequests = 0 ∨ cfg.maxRequests < 0) := by omega
  have hpr := bucketInv_prune N now s hinv
  refine ⟨?_, hpr⟩
  cases hp : (pruneExpiredRateLimitBuckets now s).buckets key with
  | none =>
    rw [isRateLimited_of_prune_none key cfg now s hg hp]
    exact bucketInv_setBucket N _ key 1 (now + cfg.windowMs) hpr le_rfl hN
  | some b =>
    rw [isRateLimited_of_prune_some key cfg now s b hg hp]
    by_cases hexp : b.expiresAt ≤ now
    · rw [if_pos hexp]
      exact bucketInv_setBucket N _ key 1 (now + cfg.windowMs) hpr le_rfl hN
    · rw [if_neg hexp]
      by_cases hfull : cfg.maxRequests ≤ (b.count : Int)
      · rw [if_pos hfull]
        exact hpr
      · rw [if_neg hfull]
        have hcount : b.count + 1 ≤ N := by
          rw [hcfg] at hfull
          omega
        exact bucketInv_setBucket N _ key (b.count + 1) b.expiresAt hpr
          (Nat.le_add_left 1 b.count) hcount

/-- Witness for C10 on the empty table. -/
theorem rate_limiter_preserves_bucket_bounds_app :
    BucketInv 5 (isRateLimited "k" ⟨5, 60000⟩ 0 emptyRateState).2 ∧
    BucketInv 5 (pruneExpiredRateLimitBuckets 0 emptyRateState) :=
  rate_limiter_preserves_bucket_bounds 5 (by decide) ⟨5, 60000⟩ (by decide)
    "k" 0 emptyRateState (fun _ b h => nomatch h)

/-! ### Upstream caller: facts -/

theorem callGeminiGo_fst_ge (oracle : Nat → FetchResult) (maxRetries : Nat) :
    ∀ fuel attempt lastError,
      attempt ≤ (callGeminiGo oracle maxRetries attempt lastError fuel).1 := by
  intro fuel
  induction fuel with
  | zero => intro attempt lastError; exact le_rfl
  | succ n ih =>
    intro attempt lastError
    unfold callGeminiGo
    split
    · dsimp only
      split <;> (try split) <;> (try split) <;> (try split) <;>
        first
          | exact le_trans (Nat.le_succ attempt) (ih (attempt + 1) _)
          | (dsimp only; omega)
    · exact le_rfl

theorem callGeminiWithRetry_makes_an_attempt (oracle : Nat → FetchResult)
    (maxRetries : Nat) : 1 ≤ (callGeminiWithRetry oracle maxRetries).1 := by
  unfold callGeminiWithRetry callGeminiGo
  rw [if_pos (Nat.zero_le maxRetries)]
  dsimp only
  split <;> (try split) <;> (try split) <;> (try split) <;>
    first
      | exact callGeminiGo_fst_ge oracle maxRetries maxRetries (0 + 1) _
      | (dsimp only; omega)

/-- With `maxRetries = 0`, an upstream that aborts (times out) on every
attempt produces exactly one attempt and the `AbortError` is rethrown. -/
theorem callGemini_timeout_single (oracle : Nat → FetchResult)
    (h : ∀ a, oracle a = FetchResult.abortError) :
    callGeminiWithRetry oracle 0 = (1, Except.error GeminiError.aborted) := by
  simp [callGeminiWithRetry, callGeminiGo, h]

/-- C1: counter-evidence.  With `maxRetries = 1` and the first upstream
response a 4xx (`ok = false`, status 404), `callGeminiWithRetry` makes a
second attempt: the error thrown for the non-OK response carries the message
`'Upstream request failed.'`, which the catch block classifies as retryable.
If the second attempt succeeds, its body is even returned, so the 4xx was
not surfaced at all. -/
theorem non5xx_failure_is_retried :
    callGeminiWithRetry (fun _ => FetchResult.response false 404 "") 1 =
      (2, Except.error GeminiError.upstreamRequestFailed) ∧
    callGeminiWithRetry
      (fun a =>
        if a = 1 then FetchResult.response false 404 ""
        else FetchResult.response true 200 "ok") 1 =
      (2, Except.ok "ok") :=
  ⟨rfl, rfl⟩

/-! ### Handler: gatekeeper lemmas -/

theorem isOriginAllowed_no_origin (parseHostname : String → Option String)
    (allowed : List String) :
    isOriginAllowed parseHostname "" allowed = true := by
  simp [isOriginAllowed]

/-- Requests that pass the origin policy, are not preflights and pass the
access-token gate reach the API-key check with the resolved hashed token. -/
theorem handler_reaches_afterAuth (parseHostname : String → Option String)
    (hashToken : String → String) (oracle : Nat → FetchResult)
    (cfg : HandlerConfig) (req : Request) (now : Nat) (s : RateState)
    (tok : Option String)
    (hmis : ((parseAllowedOrigins cfg.allowedOriginsRaw
        (isProductionEnvironment cfg.vercelEnv cfg.nodeEnv)).isEmpty &&
        isProductionEnvironment cfg.vercelEnv cfg.nodeEnv) = false)
    (horig : isOriginAllowed parseHostname (req.origin.getD "")
        (parseAllowedOrigins cfg.allowedOriginsRaw
          (isProductionEnvironment cfg.vercelEnv cfg.nodeEnv)) = true)
    (hopt : req.method ≠ "OPTIONS")
    (hprodtok : (isProductionEnvironment cfg.vercelEnv cfg.nodeEnv &&
        (parseAccessTokens cfg.accessTokensRaw).isEmpty) = false)
    (htok : (parseAccessTokens cfg.accessTokensRaw = [] ∧ tok = none) ∨
        (∃ t, getAccessTokenFromHeader req.authorization = some t ∧ t ≠ "" ∧
          (parseAccessTokens cfg.accessTokensRaw).contains t = true ∧
          tok = some (hashToken t))) :
    handler parseHostname hashToken oracle cfg req now s =
      handlerAfterAuth oracle cfg req tok
        (corsHeaders (getCorsOriginToEcho parseHostname (req.origin.getD "")
          (parseAllowedOrigins cfg.allowedOriginsRaw
            (isProductionEnvironment cfg.vercelEnv cfg.nodeEnv)))) now s := by
  rcases htok with ⟨hempty, htokeq⟩ | ⟨t, hget, hne, hmem, htokeq⟩ <;>
    subst htokeq
  · have hprod : isProductionEnvironment cfg.vercelEnv cfg.nodeEnv = false := by
      rw [hempty] at hprodtok
      simpa using hprodtok
    rw [hprod] at hmis horig
    simp [handler, handlerAuth, hmis, horig, hopt, hprod, hempty]
  · have hmem' : t ∈ parseAccessTokens cfg.accessTokensRaw := by
      simpa using hmem
    have hnonempty : (parseAccessTokens cfg.accessTokensRaw).isEmpty = false := by
      cases hl : parseAccessTokens cfg.accessTokensRaw with
      | nil => rw [hl] at hmem; simp at hmem
      | cons a l => simp
    simp [handler, handlerAuth, hmis, horig, hopt, hprodtok, hnonempty, hget,
      hne, hmem']

/-! ### Claim C2: missing upstream key -/

/-- C2: counterexample.  With `GEMINI_API_KEY` absent, an OPTIONS request (in
a permissive non-production configuration) is answered 204, not 500: the
preflight short-circuit runs before the key check, so the response is not
500 regardless of method. -/
theorem missing_key_options_is_204 :
    (handler (fun _ => none) (fun t => t) (fun _ => FetchResult.abortError)
      ⟨none, none, none, none, none, 5, 60000, 1⟩
      ⟨"OPTIONS", none, none, none, none, none, none⟩ 0 emptyRateState).status
      = 204 :=
  rfl

/-- C2 (amended): with `GEMINI_API_KEY` absent, every request that passes the
origin policy, is not an OPTIONS preflight and passes access-token
enforcement is answered 500 with the key-misconfiguration body, regardless of
its method, headers or body; requests short-circuited by an earlier check
receive that check's response instead. -/
theorem missing_key_yields_500_after_gatekeepers
    (parseHostname : String → Option String) (hashToken : String → String)
    (oracle : Nat → FetchResult) (cfg : HandlerConfig) (req : Request)
    (now : Nat) (s : RateState) (tok : Option String)
    (hkey : jsStrTruthy cfg.geminiApiKey = false)
    (hmis : ((parseAllowedOrigins cfg.allowedOriginsRaw
        (isProductionEnvironment cfg.vercelEnv cfg.nodeEnv)).isEmpty &&
        isProductionEnvironment cfg.vercelEnv cfg.nodeEnv) = false)
    (horig : isOriginAllowed parseHostname (req.origin.getD "")
        (parseAllowedOrigins cfg.allowedOriginsRaw
          (isProductionEnvironment cfg.vercelEnv cfg.nodeEnv)) = true)
    (hopt : req.method ≠ "OPTIONS")
    (hprodtok : (isProductionEnvironment cfg.vercelEnv cfg.nodeEnv &&
        (parseAccessTokens cfg.accessTokensRaw).isEmpty) = false)
    (htok : (parseAccessTokens cfg.accessTokensRaw = [] ∧ tok = none) ∨
        (∃ t, getAccessTokenFromHeader req.authorization = some t ∧ t ≠ "" ∧
          (parseAccessTokens cfg.accessTokensRaw).contains t = true ∧
          tok = some (hashToken t))) :
    (handler parseHostname hashToken oracle cfg req now s).status = 500 ∧
    (handler parseHostname hashToken oracle cfg req now s).body =
      RespBody.jsonErrorWithDocs
        "Gemini API key is not configured. Set GEMINI_API_KEY with your Gemini key only."
        "https://ai.google.dev/gemini-api/docs/api-key" := by
  rw [handler_reaches_afterAuth parseHostname hashToken oracle cfg req now s
    tok hmis horig hopt hprodtok htok]
  simp [handlerAfterAuth, hkey]

/-- Witness for the amended C2 at a concrete GET request with no key. -/
theorem missing_key_yields_500_after_gatekeepers_app :
    ((handler (fun _ => none) (fun t => t) (fun _ => FetchResult.abortError)
      ⟨none, none, none, none, none, 5, 60000, 1⟩
      ⟨"GET", none, none, none, none, none, none⟩ 0 emptyRateState).status
      = 500) ∧
    ((handler (fun _ => none) (fun t => t) (fun _ => FetchResult.abortError)
      ⟨none, none, none, none, none, 5, 60000, 1⟩
      ⟨"GET", none, none, none, none, none, none⟩ 0 emptyRateState).body =
      RespBody.jsonErrorWithDocs
        "Gemini API key is not configured. Set GEMINI_API_KEY with your Gemini key only."
        "https://ai.google.dev/gemini-api/docs/api-key") :=
  missing_key_yields_500_after_gatekeepers (fun _ => none) (fun t => t)
    (fun _ => FetchResult.abortError) ⟨none, none, none, none, none, 5, 60000, 1⟩
    ⟨"GET", none, none, none, none, none, none⟩ 0 emptyRateState none
    (by decide) (by decide) (by decide) (by decide) (by decide)
    (Or.inl ⟨rfl, rfl⟩)

/-! ### Handler phases never answer 403 -/

theorem handlerUpstream_status_ne_403 (oracle : Nat → FetchResult)
    (maxRetries : Nat) (hdrs : List (String × String)) (s : RateState) :
    (handlerUpstream oracle maxRetries hdrs s).status ≠ 403 := by
  unfold handlerUpstream
  dsimp only
  split <;> (dsimp only; decide)

theorem handlerRate_status_ne_403 (oracle : Nat → FetchResult)
    (cfg : HandlerConfig) (req : Request) (hashedToken : Option String)
    (hdrs : List (String × String)) (now : Nat) (s : RateState) :
    (handlerRate oracle cfg req hashedToken hdrs now s).status ≠ 403 := by
  unfold handlerRate
  dsimp only
  split
  · dsimp only
    decide
  · exact handlerUpstream_status_ne_403 oracle cfg.maxRetries hdrs _

theorem handlerValidate_status_ne_403 (oracle : Nat → FetchResult)
    (cfg : HandlerConfig) (req : Request) (hashedToken : Option String)
    (hdrs : List (String × String)) (now : Nat) (s : RateState) :
    (handlerValidate oracle cfg req hashedToken hdrs now s).status ≠ 403 := by
  unfold handlerValidate
  split
  · dsimp only
    decide
  · split
    · dsimp only
      decide
    · split
      · dsimp only
        decide
      · split
        · dsimp only
          decide
        · split
          · dsimp only
            decide
          · exact handlerRate_status_ne_403 oracle cfg req hashedToken hdrs
              now s

theorem handlerAfterAuth_status_ne_403 (oracle : Nat → FetchResult)
    (cfg : HandlerConfig) (req : Request) (hashedToken : Option String)
    (hdrs : List (String × String)) (now : Nat) (s : RateState) :
    (handlerAfterAuth oracle cfg req hashedToken hdrs now s).status ≠ 403 := by
  unfold handlerAfterAuth
  split
  · dsimp only
    decide
  · exact handlerValidate_status_ne_403 oracle cfg req hashedToken hdrs now s

theorem handlerAuth_status_ne_403 (hashToken : String → String)
    (oracle : Nat → FetchResult) (cfg : HandlerConfig) (req : Request)
    (hdrs : List (String × String)) (now : Nat) (s : RateState) :
    (handlerAuth hashToken oracle cfg req hdrs now s).status ≠ 403 := by
  unfold handlerAuth
  dsimp only
  split
  · dsimp only
    decide
  · split
    · exact handlerAfterAuth_status_ne_403 oracle cfg req none hdrs now s
    · split
      · dsimp only
        decide
      · split
        · dsimp only
          decide
        · exact handlerAfterAuth_status_ne_403 oracle cfg req _ hdrs now s

/-! ### Claim C3: requests with no declared origin -/

/-- C3: counterexample.  In production with no configured allowed origins, a
request that declares no Origin header is rejected 500 for missing CORS
configuration, so it is not allowed under every configuration. -/
theorem no_origin_rejected_in_unconfigured_production :
    ((handler (fun _ => none) (fun t => t) (fun _ => FetchResult.abortError)
      ⟨some "production", none, none, none, some "key", 5, 60000, 1⟩
      ⟨"POST", none, some "application/json", none, none, none, some "Hello"⟩
      0 emptyRateState).status = 500) ∧
    ((handler (fun _ => none) (fun t => t) (fun _ => FetchResult.abortError)
      ⟨some "production", none, none, none, some "key", 5, 60000, 1⟩
      ⟨"POST", none, some "application/json", none, none, none, some "Hello"⟩
      0 emptyRateState).body =
      RespBody.jsonError "CORS configuration is missing on the server.") :=
  ⟨rfl, rfl⟩

/-- C3 (amended): a request with no declared Origin header always passes
origin matching (`isOriginAllowed` accepts the empty origin against every
allowed set), and the handler never answers it 403; but in production with
zero configured allowed origins the handler rejects every request, including
origin-less ones, with the 500 CORS-misconfiguration response. -/
theorem no_origin_request_never_403 (parseHostname : String → Option String)
    (hashToken : String → String) (oracle : Nat → FetchResult)
    (cfg : HandlerConfig) (req : Request) (now : Nat) (s : RateState)
    (horig : req.origin = none ∨ req.origin = some "") :
    isOriginAllowed parseHostname ""
      (parseAllowedOrigins cfg.allowedOriginsRaw
        (isProductionEnvironment cfg.vercelEnv cfg.nodeEnv)) = true ∧
    (handler parseHostname hashToken oracle cfg req now s).status ≠ 403 := by
  have h0 : req.origin.getD "" = "" := by
    rcases horig with h | h <;> simp [h]
  refine ⟨isOriginAllowed_no_origin parseHostname _, ?_⟩
  unfold handler
  dsimp only
  rw [h0]
  split
  · dsimp only
    decide
  · split
    · rename_i hcontra
      exact absurd hcontra (by simp [isOriginAllowed_no_origin])
    · split
      · dsimp only
        decide
      · exact handlerAuth_status_ne_403 hashToken oracle cfg req _ now s

/-- Witness for the amended C3 at a concrete origin-less POST request. -/
theorem no_origin_request_never_403_app :
    isOriginAllowed (fun _ => none) ""
      (parseAllowedOrigins (some "https://allowed.example")
        (isProductionEnvironment none none)) = true ∧
    (handler (fun _ => none) (fun t => t) (fun _ => FetchResult.abortError)
      ⟨none, none, some "https://allowed.example", none, some "key", 5, 60000,
        1⟩
      ⟨"POST", none, some "application/json", none, none, none, some "Hello"⟩
      0 emptyRateState).status ≠ 403 :=
  no_origin_request_never_403 (fun _ => none) (fun t => t)
    (fun _ => FetchResult.abortError)
    ⟨none, none, some "https://allowed.example", none, some "key", 5, 60000, 1⟩
    ⟨"POST", none, some "application/json", none, none, none, some "Hello"⟩
    0 emptyRateState (Or.inl rfl)

/-! ### Claim C5: preflight requests -/

/-- C5: counterexample.  An OPTIONS request from an origin outside the
allow-list is answered 403, not 204: the origin decision runs before the
preflight branch. -/
theorem options_from_disallowed_origin_is_403 :
    (handler (fun _ => none) (fun t => t) (fun _ => FetchResult.abortError)
      ⟨none, none, some "https://allowed.example", none, some "key", 5, 60000,
        1⟩
      ⟨"OPTIONS", some "https://evil.example", none, none, none, none, none⟩
      0 emptyRateState).status = 403 :=
  rfl

/-- C5 (amended): every OPTIONS request that passes the origin policy (and
the production CORS-configuration check) is answered 204 with exactly the
CORS headers, an empty body, the rate-limiter state untouched and zero
upstream attempts — so no credential resolution, validation, limiter
mutation or upstream call takes place. -/
theorem preflight_after_origin_policy_is_204
    (parseHostname : String → Option String) (hashToken : String → String)
    (oracle : Nat → FetchResult) (cfg : HandlerConfig) (req : Request)
    (now : Nat) (s : RateState)
    (hmis : ((parseAllowedOrigins cfg.allowedOriginsRaw
        (isProductionEnvironment cfg.vercelEnv cfg.nodeEnv)).isEmpty &&
        isProductionEnvironment cfg.vercelEnv cfg.nodeEnv) = false)
    (horig : isOriginAllowed parseHostname (req.origin.getD "")
        (parseAllowedOrigins cfg.allowedOriginsRaw
          (isProductionEnvironment cfg.vercelEnv cfg.nodeEnv)) = true)
    (hopt : req.method = "OPTIONS") :
    handler parseHostname hashToken oracle cfg req now s =
      ⟨204,
        corsHeaders (getCorsOriginToEcho parseHostname (req.origin.getD "")
          (parseAllowedOrigins cfg.allowedOriginsRaw
            (isProductionEnvironment cfg.vercelEnv cfg.nodeEnv))),
        RespBody.empty, s, 0⟩ := by
  simp [handler, hmis, horig, hopt]

/-- Witness for the amended C5 at a concrete allowed-origin preflight. -/
theorem preflight_after_origin_policy_is_204_app :
    handler (fun _ => none) (fun t => t) (fun _ => FetchResult.abortError)
      ⟨none, none, some "https://allowed.example", none, some "key", 5, 60000,
        1⟩
      ⟨"OPTIONS", some "https://allowed.example", none, none, none, none,
        none⟩ 0 emptyRateState =
      ⟨204,
        corsHeaders (getCorsOriginToEcho (fun _ => none)
          ((some "https://allowed.example" : Option String).getD "")
          (parseAllowedOrigins (some "https://allowed.example")
            (isProductionEnvironment none none))),
        RespBody.empty, emptyRateState, 0⟩ :=
  preflight_after_origin_policy_is_204 (fun _ => none) (fun t => t)
    (fun _ => FetchResult.abortError)
    ⟨none, none, some "https://allowed.example", none, some "key", 5, 60000, 1⟩
    ⟨"OPTIONS", some "https://allowed.example", none, none, none, none, none⟩
    0 emptyRateState (by decide) (by decide) rfl

/-! ### Claims C6 and C8: requests that reach validation and upstream -/

theorem handlerUpstream_status_cases (oracle : Nat → FetchResult)
    (maxRetries : Nat) (hdrs : List (String × String)) (s : RateState) :
    (handlerUpstream oracle maxRetries hdrs s).status = 200 ∨
    (handlerUpstream oracle maxRetries hdrs s).status = 500 := by
  unfold handlerUpstream
  dsimp only
  split
  · exact Or.inl rfl
  · exact Or.inr rfl

theorem handlerRate_status_cases (oracle : Nat → FetchResult)
    (cfg : HandlerConfig) (req : Request) (hashedToken : Option String)
    (hdrs : List (String × String)) (now : Nat) (s : RateState) :
    (handlerRate oracle cfg req hashedToken hdrs now s).status = 429 ∨
    (handlerRate oracle cfg req hashedToken hdrs now s).status = 200 ∨
    (handlerRate oracle cfg req hashedToken hdrs now s).status = 500 := by
  unfold handlerRate
  dsimp only
  split
  · exact Or.inl rfl
  · exact Or.inr (handlerUpstream_status_cases oracle cfg.maxRetries hdrs _)

/-- C6: if every upstream attempt times out and `maxRetries = 0`, a request
that reaches the upstream call gets exactly one attempt and a 500 response
whose body is only the generic failure message — no upstream detail or
credential. -/
theorem timeout_zero_retries_one_attempt_500
    (parseHostname : String → Option String) (hashToken : String → String)
    (oracle : Nat → FetchResult) (cfg : HandlerConfig) (req : Request)
    (now : Nat) (s : RateState) (tok : Option String) (p : String)
    (horacle : ∀ a, oracle a = FetchResult.abortError)
    (hretries : cfg.maxRetries = 0)
    (hmis : ((parseAllowedOrigins cfg.allowedOriginsRaw
        (isProductionEnvironment cfg.vercelEnv cfg.nodeEnv)).isEmpty &&
        isProductionEnvironment cfg.vercelEnv cfg.nodeEnv) = false)
    (horig : isOriginAllowed parseHostname (req.origin.getD "")
        (parseAllowedOrigins cfg.allowedOriginsRaw
          (isProductionEnvironment cfg.vercelEnv cfg.nodeEnv)) = true)
    (hprodtok : (isProductionEnvironment cfg.vercelEnv cfg.nodeEnv &&
        (parseAccessTokens cfg.accessTokensRaw).isEmpty) = false)
    (htok : (parseAccessTokens cfg.accessTokensRaw = [] ∧ tok = none) ∨
        (∃ t, getAccessTokenFromHeader req.authorization = some t ∧ t ≠ "" ∧
          (parseAccessTokens cfg.accessTokensRaw).contains t = true ∧
          tok = some (hashToken t)))
    (hkey : jsStrTruthy cfg.geminiApiKey = true)
    (hpost : req.method = "POST")
    (hct : containsSubstr (req.contentType.getD "") "application/json" = true)
    (hp : req.prompt = some p) (htrim : jsTrim p ≠ "")
    (hlen : p.length ≤ MAX_PROMPT_LENGTH)
    (hrate : (isRateLimited (getClientKey req tok)
        ⟨cfg.rlMaxRequests, cfg.rlWindowMs⟩ now s).1 = false) :
    (handler parseHostname hashToken oracle cfg req now s).status = 500 ∧
    (handler parseHostname hashToken oracle cfg req now s).body =
      RespBody.jsonError "Failed to generate insight." ∧
    (handler parseHostname hashToken oracle cfg req now s).upstreamAttempts
      = 1 := by
  have hopt : req.method ≠ "OPTIONS" := by
    rw [hpost]
    decide
  rw [handler_reaches_afterAuth parseHostname hashToken oracle cfg req now s
    tok hmis horig hopt hprodtok htok]
  have hcall := callGemini_timeout_single oracle horacle
  have hlen' : ¬ MAX_PROMPT_LENGTH < p.length := Nat.not_lt.mpr hlen
  simp [handlerAfterAuth, handlerValidate, handlerRate, handlerUpstream,
    hkey, hpost, hct, hp, htrim, hlen', hrate, hretries, hcall]

/-- Witness for C6 at a concrete POST with an always-timing-out upstream. -/
theorem timeout_zero_retries_one_attempt_500_app :
    ((handler (fun _ => none) (fun t => t) (fun _ => FetchResult.abortError)
      ⟨none, none, none, none, some "key", 5, 60000, 0⟩
      ⟨"POST", none, some "application/json", none, none, none, some "Hello"⟩
      0 emptyRateState).status = 500) ∧
    ((handler (fun _ => none) (fun t => t) (fun _ => FetchResult.abortError)
      ⟨none, none, none, none, some "key", 5, 60000, 0⟩
      ⟨"POST", none, some "application/json", none, none, none, some "Hello"⟩
      0 emptyRateState).body =
      RespBody.jsonError "Failed to generate insight.") ∧
    ((handler (fun _ => none) (fun t => t) (fun _ => FetchResult.abortError)
      ⟨none, none, none, none, some "key", 5, 60000, 0⟩
      ⟨"POST", none, some "application/json", none, none, none, some "Hello"⟩
      0 emptyRateState).upstreamAttempts = 1) :=
  timeout_zero_retries_one_attempt_500 (fun _ => none) (fun t => t)
    (fun _ => FetchResult.abortError)
    ⟨none, none, none, none, some "key", 5, 60000, 0⟩
    ⟨"POST", none, some "application/json", none, none, none, some "Hello"⟩
    0 emptyRateState none "Hello" (fun _ => rfl) rfl (by decide) (by decide)
    (by decide) (Or.inl ⟨rfl, rfl⟩) (by decide) rfl (by decide) rfl
    (by decide) (by decide) (by decide)

/-- C8: for a request that reaches prompt validation (with a non-empty
trimmed prompt), the handler answers 413 exactly when the untrimmed prompt
is longer than `MAX_PROMPT_LENGTH` (4000) characters — so a 4000-character
prompt passes validation and a 4001-character prompt is rejected 413 — and
such a request is never answered 400. -/
theorem prompt_length_boundary
    (parseHostname : String → Option String) (hashToken : String → String)
    (oracle : Nat → FetchResult) (cfg : HandlerConfig) (req : Request)
    (now : Nat) (s : RateState) (tok : Option String) (p : String)
    (hmis : ((parseAllowedOrigins cfg.allowedOriginsRaw
        (isProductionEnvironment cfg.vercelEnv cfg.nodeEnv)).isEmpty &&
        isProductionEnvironment cfg.vercelEnv cfg.nodeEnv) = false)
    (horig : isOriginAllowed parseHostname (req.origin.getD "")
        (parseAllowedOrigins cfg.allowedOriginsRaw
          (isProductionEnvironment cfg.vercelEnv cfg.nodeEnv)) = true)
    (hprodtok : (isProductionEnvironment cfg.vercelEnv cfg.nodeEnv &&
        (parseAccessTokens cfg.accessTokensRaw).isEmpty) = false)
    (htok : (parseAccessTokens cfg.accessTokensRaw = [] ∧ tok = none) ∨
        (∃ t, getAccessTokenFromHeader req.authorization = some t ∧ t ≠ "" ∧
          (parseAccessTokens cfg.accessTokensRaw).contains t = true ∧
          tok = some (hashToken t)))
    (hkey : jsStrTruthy cfg.geminiApiKey = true)
    (hpost : req.method = "POST")
    (hct : containsSubstr (req.contentType.getD "") "application/json" = true)
    (hp : req.prompt = some p) (htrim : jsTrim p ≠ "") :
    ((handler parseHostname hashToken oracle cfg req now s).status = 413 ↔
      MAX_PROMPT_LENGTH < p.length) ∧
    (handler parseHostname hashToken oracle cfg req now s).status ≠ 400 := by
  have hopt : req.method ≠ "OPTIONS" := by
    rw [hpost]
    decide
  rw [handler_reaches_afterAuth parseHostname hashToken oracle cfg req now s
    tok hmis horig hopt hprodtok htok]
  by_cases hl : MAX_PROMPT_LENGTH < p.length
  · simp [handlerAfterAuth, handlerValidate, hkey, hpost, hct, hp, htrim, hl]
  · have hred : handlerAfterAuth oracle cfg req tok
        (corsHeaders (getCorsOriginToEcho parseHostname (req.origin.getD "")
          (parseAllowedOrigins cfg.allowedOriginsRaw
            (isProductionEnvironment cfg.vercelEnv cfg.nodeEnv)))) now s =
        handlerRate oracle cfg req tok
          (corsHeaders (getCorsOriginToEcho parseHostname (req.origin.getD "")
            (parseAllowedOrigins cfg.allowedOriginsRaw
              (isProductionEnvironment cfg.vercelEnv cfg.nodeEnv)))) now s := by
      simp [handlerAfterAuth, handlerValidate, hkey, hpost, hct, hp, htrim, hl]
    rw [hred]
    rcases handlerRate_status_cases oracle cfg req tok
        (corsHeaders (getCorsOriginToEcho parseHostname (req.origin.getD "")
          (parseAllowedOrigins cfg.allowedOriginsRaw
            (isProductionEnvironment cfg.vercelEnv cfg.nodeEnv)))) now s with
      h | h | h <;> rw [h] <;> simp [hl]

set_option maxRecDepth 100000 in
/-- Witness for C8 at a concrete 4001-character prompt (rejected 413). -/
theorem prompt_length_boundary_app :
    ((handler (fun _ => none) (fun t => t) (fun _ => FetchResult.abortError)
      ⟨none, none, none, none, some "key", 5, 60000, 1⟩
      ⟨"POST", none, some "application/json", none, none, none,
        some (String.mk (List.replicate 4001 'a'))⟩
      0 emptyRateState).status = 413 ↔
      MAX_PROMPT_LENGTH < (String.mk (List.replicate 4001 'a')).length) ∧
    (handler (fun _ => none) (fun t => t) (fun _ => FetchResult.abortError)
      ⟨none, none, none, none, some "key", 5, 60000, 1⟩
      ⟨"POST", none, some "application/json", none, none, none,
        some (String.mk (List.replicate 4001 'a'))⟩
      0 emptyRateState).status ≠ 400 :=
  prompt_length_boundary (fun _ => none) (fun t => t)
    (fun _ => FetchResult.abortError)
    ⟨none, none, none, none, some "key", 5, 60000, 1⟩
    ⟨"POST", none, some "application/json", none, none, none,
      some (String.mk (List.replicate 4001 'a'))⟩
    0 emptyRateState none (String.mk (List.replicate 4001 'a'))
    (by decide) (by decide) (by decide) (Or.inl ⟨rfl, rfl⟩) (by decide) rfl
    (by decide) rfl (by decide)

/-! ### Claim C7: origin matching -/

theorem list_contains_iff (l : List String) (a : String) :
    l.contains a = true ↔ a ∈ l := by
  simp

/-- Modelled from the spec's matching rule (for comparison with
`isOriginAllowed`): an entry matches a declared origin by exact string
equality, by being the literal wildcard `*`, or — for a `*.suffix` entry —
when the parsed hostname of the origin equals the suffix or is a subdomain
of it (ends with `'.' + suffix`). -/
def specEntryMatches (parseHostname : String → Option String)
    (origin entry : String) : Bool :=
  (entry == origin) || (entry == "*") ||
  (jsStartsWith entry "*." &&
    (match parseHostname origin with
     | some hostname =>
       (hostname == jsDrop 2 entry) ||
       jsEndsWith hostname ("." ++ jsDrop 2 entry)
     | none => false))

theorem wildcard_conj_eq (parseHostname : String → Option String)
    (origin entry : String) :
    (jsStartsWith entry "*." && isWildcardMatch parseHostname origin entry) =
    (jsStartsWith entry "*." &&
      (match parseHostname origin with
       | some hostname =>
         (hostname == jsDrop 2 entry) ||
         jsEndsWith hostname ("." ++ jsDrop 2 entry)
       | none => false)) := by
  unfold isWildcardMatch
  by_cases hsw : jsStartsWith entry "*."
  · cases parseHostname origin <;> simp [hsw]
  · simp [hsw]

/-- C7: a declared (non-empty) origin is accepted by `isOriginAllowed`
exactly when some entry of the allowed set matches it in the spec's sense:
exact equality, the literal wildcard `*`, or a `*.suffix` entry whose suffix
equals the parsed hostname or has it as a subdomain. -/
theorem origin_allowed_iff_entry_matches
    (parseHostname : String → Option String) (origin : String)
    (allowed : List String) (hne : origin ≠ "") :
    isOriginAllowed parseHostname origin allowed = true ↔
      ∃ entry ∈ allowed,
        specEntryMatches parseHostname origin entry = true := by
  rw [isOriginAllowed, if_neg hne]
  by_cases hstar : allowed.contains "*"
  · rw [if_pos hstar]
    simp only [true_iff]
    exact ⟨"*", (list_contains_iff allowed "*").mp hstar,
      by simp [specEntryMatches]⟩
  · rw [if_neg hstar]
    by_cases hexact : allowed.contains origin
    · rw [if_pos hexact]
      simp only [true_iff]
      exact ⟨origin, (list_contains_iff allowed origin).mp hexact,
        by simp [specEntryMatches]⟩
    · rw [if_neg hexact]
      rw [List.any_eq_true]
      constructor
      · rintro ⟨e, he, hm⟩
        refine ⟨e, he, ?_⟩
        have hW := (wildcard_conj_eq parseHostname origin e) ▸ hm
        simp only [specEntryMatches, Bool.or_eq_true]
        right
        exact hW
      · rintro ⟨e, he, hspec⟩
        simp only [specEntryMatches, Bool.or_eq_true, beq_iff_eq] at hspec
        rcases hspec with ((heo | hes) | hW)
        · exact absurd ((list_contains_iff allowed origin).mpr (heo ▸ he))
            hexact
        · exact absurd ((list_contains_iff allowed "*").mpr (hes ▸ he)) hstar
        · refine ⟨e, he, ?_⟩
          rw [wildcard_conj_eq parseHostname origin e]
          exact hW

/-- Witness for C7 at a concrete subdomain wildcard match. -/
theorem origin_allowed_iff_entry_matches_app :
    isOriginAllowed (fun _ => some "sub.allowed.example")
      "https://sub.allowed.example" ["*.allowed.example"] = true ↔
      ∃ entry ∈ ["*.allowed.example"],
        specEntryMatches (fun _ => some "sub.allowed.example")
          "https://sub.allowed.example" entry = true :=
  origin_allowed_iff_entry_matches (fun _ => some "sub.allowed.example")
    "https://sub.allowed.example" ["*.allowed.example"] (by decide)

/-! ### Claim C4: fixed-window rate limiting through the handler -/

theorem handlerUpstream_rate (oracle : Nat → FetchResult) (maxRetries : Nat)
    (hdrs : List (String × String)) (s : RateState) :
    (handlerUpstream oracle maxRetries hdrs s).rate = s := by
  unfold handlerUpstream
  dsimp only
  split <;> rfl

theorem handlerUpstream_attempts (oracle : Nat → FetchResult)
    (maxRetries : Nat) (hdrs : List (String × String)) (s : RateState) :
    (handlerUpstream oracle maxRetries hdrs s).upstreamAttempts =
      (callGeminiWithRetry oracle maxRetries).1 := by
  unfold handlerUpstream
  dsimp only
  split <;> rfl

theorem handlerRate_not_limited_props (oracle : Nat → FetchResult)
    (cfg : HandlerConfig) (req : Request) (tok : Option String)
    (hdrs : List (String × String)) (now : Nat) (s : RateState)
    (hfalse : (isRateLimited (getClientKey req tok)
      ⟨cfg.rlMaxRequests, cfg.rlWindowMs⟩ now s).1 = false) :
    (handlerRate oracle cfg req tok hdrs now s).rate =
      (isRateLimited (getClientKey req tok)
        ⟨cfg.rlMaxRequests, cfg.rlWindowMs⟩ now s).2 ∧
    (handlerRate oracle cfg req tok hdrs now s).status ≠ 429 ∧
    1 ≤ (handlerRate oracle cfg req tok hdrs now s).upstreamAttempts := by
  unfold handlerRate
  dsimp only
  rw [if_neg (by simp [hfalse])]
  refine ⟨handlerUpstream_rate oracle cfg.maxRetries hdrs _, ?_, ?_⟩
  · rcases handlerUpstream_status_cases oracle cfg.maxRetries hdrs
      (isRateLimited (getClientKey req tok)
        ⟨cfg.rlMaxRequests, cfg.rlWindowMs⟩ now s).2 with h | h <;>
      rw [h] <;> decide
  · rw [handlerUpstream_attempts]
    exact callGeminiWithRetry_makes_an_attempt oracle cfg.maxRetries

theorem handlerRate_limited_eq (oracle : Nat → FetchResult)
    (cfg : HandlerConfig) (req : Request) (tok : Option String)
    (hdrs : List (String × String)) (now : Nat) (s : RateState)
    (htrue : (isRateLimited (getClientKey req tok)
      ⟨cfg.rlMaxRequests, cfg.rlWindowMs⟩ now s).1 = true) :
    handlerRate oracle cfg req tok hdrs now s =
      ⟨429,
        hdrs ++ [("Retry-After",
          toString (rlRetryAfter (getClientKey req tok) cfg.rlWindowMs now
            (isRateLimited (getClientKey req tok)
              ⟨cfg.rlMaxRequests, cfg.rlWindowMs⟩ now s).2))],
        RespBody.jsonError "Too many requests. Please slow down.",
        (isRateLimited (getClientKey req tok)
          ⟨cfg.rlMaxRequests, cfg.rlWindowMs⟩ now s).2, 0⟩ := by
  unfold handlerRate
  dsimp only
  rw [if_pos htrue]

/-- Limiter state after running the handler `n` times on the same request at
the given times, starting from `s0`. -/
def handlerStateAfter (parseHostname : String → Option String)
    (hashToken : String → String) (oracle : Nat → FetchResult)
    (cfg : HandlerConfig) (req : Request) (times : Nat → Nat)
    (s0 : RateState) : Nat → RateState
  | 0 => s0
  | n + 1 =>
    (handler parseHostname hashToken oracle cfg req (times n)
      (handlerStateAfter parseHostname hashToken oracle cfg req times s0
        n)).rate

/-- Outcome of the `(n+1)`-st handler invocation in that run (0-indexed). -/
def handlerResultAt (parseHostname : String → Option String)
    (hashToken : String → String) (oracle : Nat → FetchResult)
    (cfg : HandlerConfig) (req : Request) (times : Nat → Nat)
    (s0 : RateState) (n : Nat) : HandlerResult :=
  handler parseHostname hashToken oracle cfg req (times n)
    (handlerStateAfter parseHostname hashToken oracle cfg req times s0 n)

/-- C4: under configured `maxRequests = N ≥ 1` and window `W`, for a request
that reaches the rate limiter with a fresh ClientKey, the first `N`
invocations within the window proceed past the limiter (no 429, at least one
upstream attempt), the `(N+1)`-st is rejected 429 carrying a positive
`Retry-After` equal to the remaining time (in seconds, rounded up) until the
bucket's `expiresAt`, leaving the bucket at `⟨N, t0 + W⟩`; and an invocation
at or after `expiresAt` creates a fresh bucket with count 1 and proceeds. -/
theorem fixed_window_rate_limit
    (parseHostname : String → Option String) (hashToken : String → String)
    (oracle : Nat → FetchResult) (cfg : HandlerConfig) (req : Request)
    (times : Nat → Nat) (s0 : RateState) (tok : Option String) (p : String)
    (N W : Nat) (hN : 1 ≤ N)
    (hNcfg : cfg.rlMaxRequests = (N : Int))
    (hWcfg : cfg.rlWindowMs = W)
    (hmis : ((parseAllowedOrigins cfg.allowedOriginsRaw
        (isProductionEnvironment cfg.vercelEnv cfg.nodeEnv)).isEmpty &&
        isProductionEnvironment cfg.vercelEnv cfg.nodeEnv) = false)
    (horig : isOriginAllowed parseHostname (req.origin.getD "")
        (parseAllowedOrigins cfg.allowedOriginsRaw
          (isProductionEnvironment cfg.vercelEnv cfg.nodeEnv)) = true)
    (hprodtok : (isProductionEnvironment cfg.vercelEnv cfg.nodeEnv &&
        (parseAccessTokens cfg.accessTokensRaw).isEmpty) = false)
    (htok : (parseAccessTokens cfg.accessTokensRaw = [] ∧ tok = none) ∨
        (∃ t, getAccessTokenFromHeader req.authorization = some t ∧ t ≠ "" ∧
          (parseAccessTokens cfg.accessTokensRaw).contains t = true ∧
          tok = some (hashToken t)))
    (hkey : jsStrTruthy cfg.geminiApiKey = true)
    (hpost : req.method = "POST")
    (hct : containsSubstr (req.contentType.getD "") "application/json" = true)
    (hp : req.prompt = some p) (htrim : jsTrim p ≠ "")
    (hlen : p.length ≤ MAX_PROMPT_LENGTH)
    (h0 : s0.buckets (getClientKey req tok) = none)
    (hwin : ∀ i, i ≤ N → times 0 ≤ times i ∧ times i < times 0 + W) :
    (∀ i, i < N →
      (handlerResultAt parseHostname hashToken oracle cfg req times s0
        i).status ≠ 429 ∧
      1 ≤ (handlerResultAt parseHostname hashToken oracle cfg req times s0
        i).upstreamAttempts) ∧
    (handlerResultAt parseHostname hashToken oracle cfg req times s0
      N).status = 429 ∧
    (handlerResultAt parseHostname hashToken oracle cfg req times s0
      N).upstreamAttempts = 0 ∧
    ("Retry-After", toString ((times 0 + W - times N + 999) / 1000)) ∈
      (handlerResultAt parseHostname hashToken oracle cfg req times s0
        N).headers ∧
    0 < (times 0 + W - times N + 999) / 1000 ∧
    (handlerStateAfter parseHostname hashToken oracle cfg req times s0
      (N + 1)).buckets (getClientKey req tok) = some ⟨N, times 0 + W⟩ ∧
    (∀ tNext, times 0 + W ≤ tNext →
      (isRateLimited (getClientKey req tok)
        ⟨cfg.rlMaxRequests, cfg.rlWindowMs⟩ tNext
        (handlerStateAfter parseHostname hashToken oracle cfg req times s0
          (N + 1))).1 = false ∧
      (isRateLimited (getClientKey req tok)
        ⟨cfg.rlMaxRequests, cfg.rlWindowMs⟩ tNext
        (handlerStateAfter parseHostname hashToken oracle cfg req times s0
          (N + 1))).2.buckets (getClientKey req tok) =
        some ⟨1, tNext + W⟩) := by
  have hposN : (0 : Int) < cfg.rlMaxRequests := by
    rw [hNcfg]
    exact_mod_cast hN
  have hopt : req.method ≠ "OPTIONS" := by
    rw [hpost]
    decide
  have hlen' : ¬ MAX_PROMPT_LENGTH < p.length := Nat.not_lt.mpr hlen
  set key := getClientKey req tok with hkeydef
  set S := handlerStateAfter parseHostname hashToken oracle cfg req times s0
    with hSdef
  set R := handlerResultAt parseHostname hashToken oracle cfg req times s0
    with hRdef
  have hSsucc : ∀ n, S (n + 1) =
      (handler parseHostname hashToken oracle cfg req (times n) (S n)).rate :=
    fun n => by
      rw [hSdef]
      simp only [handlerStateAfter]
  have hR : ∀ n, R n =
      handler parseHostname hashToken oracle cfg req (times n) (S n) :=
    fun n => by
      rw [hRdef, hSdef]
      rfl
  have hreach : ∀ now s,
      handler parseHostname hashToken oracle cfg req now s =
      handlerRate oracle cfg req tok
        (corsHeaders (getCorsOriginToEcho parseHostname (req.origin.getD "")
          (parseAllowedOrigins cfg.allowedOriginsRaw
            (isProductionEnvironment cfg.vercelEnv cfg.nodeEnv)))) now s := by
    intro now s
    rw [handler_reaches_afterAuth parseHostname hashToken oracle cfg req now s
      tok hmis horig hopt hprodtok htok]
    simp [handlerAfterAuth, handlerValidate, hkey, hpost, hct, hp, htrim,
      hlen']
  have hstate : ∀ n, n ≤ N → (S n).buckets key =
      (if n = 0 then none else some ⟨n, times 0 + W⟩) := by
    intro n
    induction n with
    | zero =>
      intro _
      rw [hSdef]
      simpa using h0
    | succ n ih =>
      intro hle
      have hnN : n < N := hle
      have hn : n ≤ N := le_of_lt hnN
      have hb := ih hn
      have hkeyres : (isRateLimited key
          ⟨cfg.rlMaxRequests, cfg.rlWindowMs⟩ (times n) (S n)).1 = false ∧
          (isRateLimited key ⟨cfg.rlMaxRequests, cfg.rlWindowMs⟩ (times n)
            (S n)).2.buckets key = some ⟨n + 1, times 0 + W⟩ := by
        by_cases hz : n = 0
        · subst hz
          rw [if_pos rfl] at hb
          have h := isRateLimited_fresh key
            ⟨cfg.rlMaxRequests, cfg.rlWindowMs⟩ (times 0) (S 0) hposN hb
          refine ⟨by rw [h], ?_⟩
          rw [h]
          dsimp only
          rw [setBucket_lookup_self]
          simp [hWcfg]
        · rw [if_neg hz] at hb
          have hlive : times n < (⟨n, times 0 + W⟩ : Bucket).expiresAt :=
            (hwin n hn).2
          have hroom : (((⟨n, times 0 + W⟩ : Bucket).count : Nat) : Int) <
              (⟨cfg.rlMaxRequests, cfg.rlWindowMs⟩ :
                RateLimitConfig).maxRequests := by
            dsimp only
            rw [hNcfg]
            exact_mod_cast hnN
          have h := isRateLimited_incr key
            ⟨cfg.rlMaxRequests, cfg.rlWindowMs⟩ (times n) (S n)
            ⟨n, times 0 + W⟩ hposN hb hlive hroom
          refine ⟨by rw [h], ?_⟩
          rw [h]
          dsimp only
          rw [setBucket_lookup_self]
      have hS1 : S (n + 1) = (isRateLimited key
          ⟨cfg.rlMaxRequests, cfg.rlWindowMs⟩ (times n) (S n)).2 := by
        rw [hSsucc n, hreach (times n) (S n)]
        exact (handlerRate_not_limited_props oracle cfg req tok _ (times n)
          (S n) hkeyres.1).1
      rw [hS1, if_neg (Nat.succ_ne_zero n)]
      exact hkeyres.2
  have hstep : ∀ n, n < N → (isRateLimited key
      ⟨cfg.rlMaxRequests, cfg.rlWindowMs⟩ (times n) (S n)).1 = false := by
    intro n hnN
    have hn : n ≤ N := le_of_lt hnN
    have hb := hstate n hn
    by_cases hz : n = 0
    · subst hz
      rw [if_pos rfl] at hb
      rw [isRateLimited_fresh key ⟨cfg.rlMaxRequests, cfg.rlWindowMs⟩
        (times 0) (S 0) hposN hb]
    · rw [if_neg hz] at hb
      have hroom : (((⟨n, times 0 + W⟩ : Bucket).count : Nat) : Int) <
          (⟨cfg.rlMaxRequests, cfg.rlWindowMs⟩ :
            RateLimitConfig).maxRequests := by
        dsimp only
        rw [hNcfg]
        exact_mod_cast hnN
      rw [isRateLimited_incr key ⟨cfg.rlMaxRequests, cfg.rlWindowMs⟩
        (times n) (S n) ⟨n, times 0 + W⟩ hposN hb ((hwin n hn).2) hroom]
  have hSN : (S N).buckets key = some ⟨N, times 0 + W⟩ := by
    have h := hstate N le_rfl
    rwa [if_neg (by omega)] at h
  have hliveN : times N < (⟨N, times 0 + W⟩ : Bucket).expiresAt :=
    (hwin N le_rfl).2
  have hfullN : (⟨cfg.rlMaxRequests, cfg.rlWindowMs⟩ :
      RateLimitConfig).maxRequests ≤
      (((⟨N, times 0 + W⟩ : Bucket).count : Nat) : Int) := by
    dsimp only
    rw [hNcfg]
  have hrej := isRateLimited_reject key
    ⟨cfg.rlMaxRequests, cfg.rlWindowMs⟩ (times N) (S N)
    ⟨N, times 0 + W⟩ hposN hSN hliveN hfullN
  have htrueN : (isRateLimited key ⟨cfg.rlMaxRequests, cfg.rlWindowMs⟩
      (times N) (S N)).1 = true := by rw [hrej]
  have hs1key : (isRateLimited key ⟨cfg.rlMaxRequests, cfg.rlWindowMs⟩
      (times N) (S N)).2.buckets key = some ⟨N, times 0 + W⟩ := by
    rw [hrej]
    exact prune_buckets_of_live (times N) (S N) key ⟨N, times 0 + W⟩ hSN
      hliveN
  have hsec : secondsUntilReset key (times N)
      (isRateLimited key ⟨cfg.rlMaxRequests, cfg.rlWindowMs⟩ (times N)
        (S N)).2 = (times 0 + W - times N + 999) / 1000 := by
    unfold secondsUntilReset
    rw [hs1key]
  have hd1 : 1 ≤ times 0 + W - times N := by
    have := (hwin N le_rfl).2
    omega
  have hrapos : 0 < (times 0 + W - times N + 999) / 1000 := by
    have h1 : 1 ≤ (times 0 + W - times N + 999) / 1000 :=
      (Nat.le_div_iff_mul_le (by decide : (0 : Nat) < 1000)).mpr (by omega)
    omega
  have hra : rlRetryAfter key cfg.rlWindowMs (times N)
      (isRateLimited key ⟨cfg.rlMaxRequests, cfg.rlWindowMs⟩ (times N)
        (S N)).2 = (times 0 + W - times N + 999) / 1000 := by
    unfold rlRetryAfter
    rw [hsec]
    rw [if_neg (by omega)]
  have hRN : R N = ⟨429,
      (corsHeaders (getCorsOriginToEcho parseHostname (req.origin.getD "")
        (parseAllowedOrigins cfg.allowedOriginsRaw
          (isProductionEnvironment cfg.vercelEnv cfg.nodeEnv)))) ++
        [("Retry-After", toString ((times 0 + W - times N + 999) / 1000))],
      RespBody.jsonError "Too many requests. Please slow down.",
      (isRateLimited key ⟨cfg.rlMaxRequests, cfg.rlWindowMs⟩ (times N)
        (S N)).2, 0⟩ := by
    rw [hR N, hreach (times N) (S N)]
    rw [handlerRate_limited_eq oracle cfg req tok _ (times N) (S N) htrueN]
    rw [hra]
  have hSN1 : S (N + 1) = (isRateLimited key
      ⟨cfg.rlMaxRequests, cfg.rlWindowMs⟩ (times N) (S N)).2 := by
    rw [hSsucc N, hreach (times N) (S N)]
    rw [handlerRate_limited_eq oracle cfg req tok _ (times N) (S N) htrueN]
  refine ⟨?_, ?_, ?_, ?_, hrapos, ?_, ?_⟩
  · intro i hi
    have hprops := handlerRate_not_limited_props oracle cfg req tok
      (corsHeaders (getCorsOriginToEcho parseHostname (req.origin.getD "")
        (parseAllowedOrigins cfg.allowedOriginsRaw
          (isProductionEnvironment cfg.vercelEnv cfg.nodeEnv))))
      (times i) (S i) (hstep i hi)
    rw [hR i, hreach (times i) (S i)]
    exact ⟨hprops.2.1, hprops.2.2⟩
  · rw [hRN]
  · rw [hRN]
  · rw [hRN]
    simp
  · rw [hSN1]
    exact hs1key
  · intro tNext ht
    have hexp : (⟨N, times 0 + W⟩ : Bucket).expiresAt ≤ tNext := ht
    have hb1 : (S (N + 1)).buckets key = some ⟨N, times 0 + W⟩ := by
      rw [hSN1]
      exact hs1key
    have h := isRateLimited_expired key
      ⟨cfg.rlMaxRequests, cfg.rlWindowMs⟩ tNext (S (N + 1))
      ⟨N, times 0 + W⟩ hposN hb1 hexp
    refine ⟨by rw [h], ?_⟩
    rw [h]
    dsimp only
    rw [setBucket_lookup_self]
    simp [hWcfg]

/-- Witness for C4 with `N = 2`, `W = 60000`, requests at times 0, 1, 2. -/
theorem fixed_window_rate_limit_app :
    (∀ i, i < 2 →
      (handlerResultAt (fun _ => none) (fun t => t)
        (fun _ => FetchResult.abortError)
        ⟨none, none, none, none, some "key", 2, 60000, 1⟩
        ⟨"POST", none, some "application/json", none, none, none,
          some "Hello"⟩ (fun i => i) emptyRateState i).status ≠ 429 ∧
      1 ≤ (handlerResultAt (fun _ => none) (fun t => t)
        (fun _ => FetchResult.abortError)
        ⟨none, none, none, none, some "key", 2, 60000, 1⟩
        ⟨"POST", none, some "application/json", none, none, none,
          some "Hello"⟩ (fun i => i) emptyRateState i).upstreamAttempts) ∧
    (handlerResultAt (fun _ => none) (fun t => t)
      (fun _ => FetchResult.abortError)
      ⟨none, none, none, none, some "key", 2, 60000, 1⟩
      ⟨"POST", none, some "application/json", none, none, none, some "Hello"⟩
      (fun i => i) emptyRateState 2).status = 429 ∧
    (handlerResultAt (fun _ => none) (fun t => t)
      (fun _ => FetchResult.abortError)
      ⟨none, none, none, none, some "key", 2, 60000, 1⟩
      ⟨"POST", none, some "application/json", none, none, none, some "Hello"⟩
      (fun i => i) emptyRateState 2).upstreamAttempts = 0 ∧
    ("Retry-After", toString ((0 + 60000 - 2 + 999) / 1000)) ∈
      (handlerResultAt (fun _ => none) (fun t => t)
        (fun _ => FetchResult.abortError)
        ⟨none, none, none, none, some "key", 2, 60000, 1⟩
        ⟨"POST", none, some "application/json", none, none, none,
          some "Hello"⟩ (fun i => i) emptyRateState 2).headers ∧
    0 < (0 + 60000 - 2 + 999) / 1000 ∧
    (handlerStateAfter (fun _ => none) (fun t => t)
      (fun _ => FetchResult.abortError)
      ⟨none, none, none, none, some "key", 2, 60000, 1⟩
      ⟨"POST", none, some "application/json", none, none, none, some "Hello"⟩
      (fun i => i) emptyRateState 3).buckets
      (getClientKey
        ⟨"POST", none, some "application/json", none, none, none,
          some "Hello"⟩ none) = some ⟨2, 0 + 60000⟩ ∧
    (∀ tNext, 0 + 60000 ≤ tNext →
      (isRateLimited
        (getClientKey
          ⟨"POST", none, some "application/json", none, none, none,
            some "Hello"⟩ none) ⟨2, 60000⟩ tNext
        (handlerStateAfter (fun _ => none) (fun t => t)
          (fun _ => FetchResult.abortError)
          ⟨none, none, none, none, some "key", 2, 60000, 1⟩
          ⟨"POST", none, some "application/json", none, none, none,
            some "Hello"⟩ (fun i => i) emptyRateState 3)).1 = false ∧
      (isRateLimited
        (getClientKey
          ⟨"POST", none, some "application/json", none, none, none,
            some "Hello"⟩ none) ⟨2, 60000⟩ tNext
        (handlerStateAfter (fun _ => none) (fun t => t)
          (fun _ => FetchResult.abortError)
          ⟨none, none, none, none, some "key", 2, 60000, 1⟩
          ⟨"POST", none, some "application/json", none, none, none,
            some "Hello"⟩ (fun i => i) emptyRateState 3)).2.buckets
        (getClientKey
          ⟨"POST", none, some "application/json", none, none, none,
            some "Hello"⟩ none) = some ⟨1, tNext + 60000⟩) :=
  fixed_window_rate_limit (fun _ => none) (fun t => t)
    (fun _ => FetchResult.abortError)
    ⟨none, none, none, none, some "key", 2, 60000, 1⟩
    ⟨"POST", none, some "application/json", none, none, none, some "Hello"⟩
    (fun i => i) emptyRateState none "Hello" 2 60000 (by decide) (by decide)
    rfl (by decide) (by decide) (by decide) (Or.inl ⟨rfl, rfl⟩) (by decide)
    rfl (by decide) rfl (by decide) (by decide) rfl (by decide)
